import Mathlib

/-!
Shallow embedding of the Arduino/ESP32 sketches of the
automated-plant-watering repository, and proofs about them.

Each sketch is modelled in its own namespace:
* `SleepSketch`     — test_sleep_mode_with_interrupt.ino
* `RelayButton`     — Test_command_relay_with_push_button.ino
* `MoistCalib`      — Moist_sensor_calibration.ino
* `CommandRelay`    — Test_command_relay.ino
* `MainSketch`      — main.ino

Pure computations are modelled as Lean functions; side-effecting code
(digitalWrite, Serial printing, RTC configuration calls, delays) is
modelled as the list of calls it issues, in order.  C unsigned
arithmetic is modelled on `Nat` with explicit reduction modulo 2^32
(`unsigned long`) or 2^16 (`unsigned short`).
-/

/-- Digital pin level, as read by `digitalRead` / written by `digitalWrite`.
`high` is Arduino `HIGH` (1), `low` is `LOW` (0). -/
inductive Level
  | low
  | high
deriving DecidableEq, Repr

/-- C logical negation `!x` applied to a pin level (0 becomes 1, nonzero
becomes 0). -/
def negLevel : Level → Level
  | Level.low => Level.high
  | Level.high => Level.low

/-- 2^32, the modulus of C `unsigned long` on ESP32. -/
def UINT32_MOD : Nat := 4294967296

/-- 2^16, the modulus of C `unsigned short` on ESP32. -/
def UINT16_MOD : Nat := 65536

/-- C subtraction `a - b` of two `unsigned long` values (32-bit wrap-around
semantics); `b` is first reduced to its 32-bit value, which also covers the
case where `b` originates from a narrower unsigned type. -/
def usub32 (a b : Nat) : Nat := (a + (UINT32_MOD - b % UINT32_MOD)) % UINT32_MOD

/-- When no wrap-around occurs (`b ≤ a`, both below 2^32), the C unsigned
subtraction agrees with the true elapsed difference. -/
theorem usub32_eq_sub (a b : Nat) (hba : b ≤ a) (ha : a < UINT32_MOD) :
    usub32 a b = a - b := by
  have hb : b < UINT32_MOD := lt_of_le_of_lt hba ha
  unfold usub32
  rw [Nat.mod_eq_of_lt hb]
  have h1 : a + (UINT32_MOD - b) = (a - b) + UINT32_MOD := by omega
  rw [h1, Nat.add_mod_right, Nat.mod_eq_of_lt (by omega)]

namespace SleepSketch

/-! ### test_sleep_mode_with_interrupt.ino -/

/-- `#define DEBOUNCE_DELAY 50` -/
def DEBOUNCE_DELAY : Nat := 50

/-- `#define PIN_BUTTON_SLEEP 4` -/
def PIN_BUTTON_SLEEP : Nat := 4

/-- `#define PIN_BUTTON_WAKEUP_ESP32 GPIO_NUM_9` -/
def PIN_BUTTON_WAKEUP_ESP32 : Nat := 9

/-- `#define PIN_LED 8` -/
def PIN_LED : Nat := 8

/-- The `USE_INTERNAL_PULLUP_PULLDOWN` compile-time flag.  In the source it
is commented out (`//#define USE_INTERNAL_PULLUP_PULLDOWN`), so as
configured it is `false`. -/
def USE_INTERNAL_PULLUP_PULLDOWN : Bool := false

/-- The RTC / sleep configuration calls issued by `init_rtc`, in order. -/
inductive RtcCall
  | deinit (gpio : Nat)
  | rtcInit (gpio : Nat)
  | pullupDis (gpio : Nat)
  | pulldownEn (gpio : Nat)
  | enableExt0Wakeup (gpio : Nat) (level : Nat)
deriving DecidableEq, Repr

/-- The de-init loop of `init_rtc`: `for (i = 0; i < 22; i++)`, skipping
`i == 15 || i == 16`, calling `rtc_gpio_deinit((gpio_num_t)(GPIO_NUM_0 + i))`. -/
def deinitCalls : List RtcCall :=
  (List.range 22).filterMap fun i =>
    if i = 15 ∨ i = 16 then none else some (RtcCall.deinit i)

/-- Trace of RTC configuration calls issued by `init_rtc`, parameterized by
the `USE_INTERNAL_PULLUP_PULLDOWN` compile flag: de-init loop, then
`rtc_gpio_init(PIN_BUTTON_WAKEUP_ESP32)`, then (only under the flag)
`rtc_gpio_pullup_dis` and `rtc_gpio_pulldown_en` on the wake pin, then
`esp_sleep_enable_ext0_wakeup(PIN_BUTTON_WAKEUP_ESP32, 1)`. -/
def init_rtc (usePull : Bool) : List RtcCall :=
  deinitCalls
    ++ [RtcCall.rtcInit PIN_BUTTON_WAKEUP_ESP32]
    ++ (if usePull then
          [RtcCall.pullupDis PIN_BUTTON_WAKEUP_ESP32,
           RtcCall.pulldownEn PIN_BUTTON_WAKEUP_ESP32]
        else [])
    ++ [RtcCall.enableExt0Wakeup PIN_BUTTON_WAKEUP_ESP32 1]

/-- Result of one invocation of the `handleSleepButton` ISR: the final
value of `lastEdgeTime` and whether `esp_deep_sleep_start()` was called. -/
structure SleepResult where
  lastEdgeTime : Nat
  sleeps : Bool
deriving DecidableEq, Repr

/-- The `handleSleepButton` ISR.  `lastEdgeTime` is the stored global (an
`unsigned long`), `currTime` is the value returned by `millis()`, and
`pinLevel` is what `digitalRead(PIN_BUTTON_SLEEP)` returns.  If the
unsigned difference exceeds `DEBOUNCE_DELAY`, `lastEdgeTime` is updated
and, unless the pin reads `LOW` (early return), the board goes to deep
sleep. -/
def handleSleepButton (lastEdgeTime currTime : Nat) (pinLevel : Level) :
    SleepResult :=
  if usub32 currTime lastEdgeTime > DEBOUNCE_DELAY then
    if pinLevel = Level.low then
      { lastEdgeTime := currTime, sleeps := false }
    else
      { lastEdgeTime := currTime, sleeps := true }
  else
    { lastEdgeTime := lastEdgeTime, sleeps := false }

end SleepSketch

namespace RelayButton

/-! ### Test_command_relay_with_push_button.ino -/

/-- `volatile unsigned long debounceDelay = 50;` -/
def debounceDelay : Nat := 50

/-- `#define PIN_PUSH_BUTTON 2` -/
def PIN_PUSH_BUTTON : Nat := 2

/-- `#define PIN_RELAY 7` -/
def PIN_RELAY : Nat := 7

/-- Result of one invocation of the `handleButton` ISR: the final value of
`lastEdgeTime` and the value written to `PIN_RELAY` (pin 7), if any. -/
structure ButtonResult where
  lastEdgeTime : Nat
  relayWrite : Option Level
deriving DecidableEq, Repr

/-- The `handleButton` ISR.  `lastEdgeTime` is the stored global
(`unsigned long`), `currTime` is `millis()`, and `pushButtState` is what
`digitalRead(PIN_PUSH_BUTTON)` returns at that moment.  If the unsigned
difference exceeds `debounceDelay`, `lastEdgeTime` is updated and the
relay pin is written with `!pushButtState`. -/
def handleButton (lastEdgeTime currTime : Nat) (pushButtState : Level) :
    ButtonResult :=
  if usub32 currTime lastEdgeTime > debounceDelay then
    { lastEdgeTime := currTime, relayWrite := some (negLevel pushButtState) }
  else
    { lastEdgeTime := lastEdgeTime, relayWrite := none }

end RelayButton

namespace MoistCalib

/-! ### Moist_sensor_calibration.ino -/

/-- Arduino's `map(x, in_min, in_max, out_min, out_max)` on C `long`
values; C integer division truncates toward zero (`Int.tdiv`). -/
def map (x in_min in_max out_min out_max : Int) : Int :=
  Int.tdiv ((x - in_min) * (out_max - out_min)) (in_max - in_min) + out_min

/-- One observable action of the calibration sketch's `loop()`. -/
inductive Event
  | analogReadA0 (val : Int)
  | serialPrintln (line : String)
  | delayMs (ms : Nat)
deriving DecidableEq, Repr

/-- Whether an event is the analog read of pin A0. -/
def Event.isAnalogRead : Event → Bool
  | Event.analogReadA0 _ => true
  | _ => false

/-- Whether an event is a `Serial.println` call. -/
def Event.isPrintln : Event → Bool
  | Event.serialPrintln _ => true
  | _ => false

/-- One iteration of the calibration sketch's `loop()`, given the value
`val` returned by `analogRead(PIN_SENSOR)`: read the sensor, compute
`perc = map(val, 1100, 3500, 0, 100)`, print both, delay 1000 ms. -/
def loopIter (val : Int) : List Event :=
  [Event.analogReadA0 val,
   Event.serialPrintln ("Sensor value: " ++ toString val),
   Event.serialPrintln
     ("Expressed in percentage: " ++ toString (map val 1100 3500 0 100)),
   Event.delayMs 1000]

end MoistCalib

namespace CommandRelay

/-! ### Test_command_relay.ino -/

/-- `#define PIN_RELAY 7` -/
def PIN_RELAY : Nat := 7

/-- `volatile byte relayState = HIGH;` -/
def relayStateInit : Level := Level.high

/-- Value of `relayState` after `n` iterations of `loop()`; each
iteration executes `relayState = !relayState` and then writes that value
to `PIN_RELAY`. -/
def relayStateAfter : Nat → Level
  | 0 => relayStateInit
  | n + 1 => negLevel (relayStateAfter n)

/-- The value written to `PIN_RELAY` by `digitalWrite` during iteration
`n` (counting iterations from 1): the freshly inverted state. -/
def writtenAt (n : Nat) : Level := relayStateAfter n

end CommandRelay

namespace MainSketch

/-! ### main.ino (src/unnamed/part_000, after the separator) -/

/-- `#define BASE_DRY_THRESHOLD 1900` -/
def BASE_DRY_THRESHOLD : Int := 1900

/-- `#define POLLING_PERIOD_M 30` (documented as the polling period in
minutes). -/
def POLLING_PERIOD_M : Nat := 30

/-- `#define DEBOUNCE_DELAY 50` -/
def DEBOUNCE_DELAY : Nat := 50

/-- The `DEBUG_MODE` compile flag.  In the source it is commented out
(`//#define DEBUG_MODE`), so as configured it is `false`. -/
def DEBUG_MODE : Bool := false

/-- `#define PIN_RELAY 12` -/
def PIN_RELAY : Nat := 12

/-- `#define PIN_LED_G 8` -/
def PIN_LED_G : Nat := 8

/-- `#define PIN_LED_Y 6` -/
def PIN_LED_Y : Nat := 6

/-- The delay at the end of `loop()`: `delay(5000)` under `DEBUG_MODE`,
otherwise `delay(POLLING_PERIOD_M * 3600)`. -/
def loopEndDelay : Nat := if DEBUG_MODE then 5000 else POLLING_PERIOD_M * 3600

/-- `isSoilDry()`: the sensor value read from `PIN_MOIST_SENSOR` is
compared against the threshold; dry iff strictly greater. -/
def isSoilDry (valSensor : Int) : Bool := valSensor > BASE_DRY_THRESHOLD

/-- One observable action of `main.ino`'s `loop()`. -/
inductive MainEvent
  | writeLedY (l : Level)
  | writeLedG (l : Level)
  | writeRelay (l : Level)
  | delayMs (ms : Nat)
deriving DecidableEq, Repr

/-- `actionPump(toActivate)`: the relay is active low, so activating
writes `LOW` to `PIN_RELAY` and deactivating writes `HIGH`. -/
def actionPump (toActivate : Bool) : MainEvent :=
  if toActivate then MainEvent.writeRelay Level.low
  else MainEvent.writeRelay Level.high

/-- One iteration of `main.ino`'s `loop()` (as configured, `DEBUG_MODE`
undefined), given the sensor value read inside `isSoilDry()`: if the soil
is dry, light the yellow LED, run the pump for 5000 ms with the green LED
on, then stop the pump and the green LED; otherwise just clear the yellow
LED.  Either way, end with the polling delay. -/
def loopIter (valSensor : Int) : List MainEvent :=
  (if isSoilDry valSensor then
    [MainEvent.writeLedY Level.high,
     actionPump true,
     MainEvent.writeLedG Level.high,
     MainEvent.delayMs 5000,
     actionPump false,
     MainEvent.writeLedG Level.low]
  else
    [MainEvent.writeLedY Level.low])
  ++ [MainEvent.delayMs loopEndDelay]

/-- The level on `PIN_RELAY` after a list of events runs, starting from
`init`. -/
def relayAfter (evts : List MainEvent) (init : Level) : Level :=
  evts.foldl (fun r e => match e with | MainEvent.writeRelay l => l | _ => r)
    init

/-- Result of one invocation of the `handlePumpButton` ISR: the final
value of `lastEdgeTime` (an `unsigned short`, hence reduced mod 2^16 when
assigned) and the values written to `PIN_RELAY` and `PIN_LED_G`, if any. -/
structure PumpButtonResult where
  lastEdgeTime : Nat
  relayWrite : Option Level
  ledGWrite : Option Level
deriving DecidableEq, Repr

/-- The `handlePumpButton` ISR.  `lastEdgeTime` is the stored global, a
`volatile unsigned short` (value below 2^16); in `currTime - lastEdgeTime`
it is promoted to `unsigned long`, so the guard compares the 32-bit
difference with `DEBOUNCE_DELAY`.  On success the assignment
`lastEdgeTime = currTime` truncates `currTime` to 16 bits, the relay pin
is written with `!pushButtState` and the green LED with `pushButtState`. -/
def handlePumpButton (lastEdgeTime currTime : Nat) (pushButtState : Level) :
    PumpButtonResult :=
  if usub32 currTime lastEdgeTime > DEBOUNCE_DELAY then
    { lastEdgeTime := currTime % UINT16_MOD,
      relayWrite := some (negLevel pushButtState),
      ledGWrite := some pushButtState }
  else
    { lastEdgeTime := lastEdgeTime, relayWrite := none, ledGWrite := none }

end MainSketch

/-! ## Claim theorems -/

/-- C1: In test_sleep_mode_with_interrupt, `init_rtc` performs its hardware
initialization steps in this order: first `rtc_gpio_deinit` on every GPIO
number from 0 to 21 except 15 and 16, then `rtc_gpio_init` on GPIO_NUM_9,
and only after that `esp_sleep_enable_ext0_wakeup(GPIO_NUM_9, 1)` to arm
the EXT0 wake source on level HIGH. -/
theorem C1_init_rtc_call_order :
    SleepSketch.init_rtc SleepSketch.USE_INTERNAL_PULLUP_PULLDOWN =
      [SleepSketch.RtcCall.deinit 0, SleepSketch.RtcCall.deinit 1,
       SleepSketch.RtcCall.deinit 2, SleepSketch.RtcCall.deinit 3,
       SleepSketch.RtcCall.deinit 4, SleepSketch.RtcCall.deinit 5,
       SleepSketch.RtcCall.deinit 6, SleepSketch.RtcCall.deinit 7,
       SleepSketch.RtcCall.deinit 8, SleepSketch.RtcCall.deinit 9,
       SleepSketch.RtcCall.deinit 10, SleepSketch.RtcCall.deinit 11,
       SleepSketch.RtcCall.deinit 12, SleepSketch.RtcCall.deinit 13,
       SleepSketch.RtcCall.deinit 14, SleepSketch.RtcCall.deinit 17,
       SleepSketch.RtcCall.deinit 18, SleepSketch.RtcCall.deinit 19,
       SleepSketch.RtcCall.deinit 20, SleepSketch.RtcCall.deinit 21,
       SleepSketch.RtcCall.rtcInit 9,
       SleepSketch.RtcCall.enableExt0Wakeup 9 1] := by
  decide

/-- C2 counterexample: as configured, `USE_INTERNAL_PULLUP_PULLDOWN` is
commented out, so `init_rtc` issues no `rtc_gpio_pullup_dis` and no
`rtc_gpio_pulldown_en` call on GPIO_NUM_9 at all: the claimed pull
resistor configuration step does not happen. -/
theorem C2_counterexample_no_pull_config :
    SleepSketch.RtcCall.pullupDis 9 ∉
      SleepSketch.init_rtc SleepSketch.USE_INTERNAL_PULLUP_PULLDOWN ∧
    SleepSketch.RtcCall.pulldownEn 9 ∉
      SleepSketch.init_rtc SleepSketch.USE_INTERNAL_PULLUP_PULLDOWN := by
  decide

/-- C2 amended: only when the `USE_INTERNAL_PULLUP_PULLDOWN` flag is
defined does `init_rtc` disable the internal pull-up and enable the
internal pull-down on GPIO_NUM_9 (in that order, between linking the pin
to the RTC and arming the EXT0 wake source); as configured the flag is
undefined and no pull resistor call is made. -/
theorem C2_amended_pull_config_only_when_flag :
    SleepSketch.init_rtc true =
      [SleepSketch.RtcCall.deinit 0, SleepSketch.RtcCall.deinit 1,
       SleepSketch.RtcCall.deinit 2, SleepSketch.RtcCall.deinit 3,
       SleepSketch.RtcCall.deinit 4, SleepSketch.RtcCall.deinit 5,
       SleepSketch.RtcCall.deinit 6, SleepSketch.RtcCall.deinit 7,
       SleepSketch.RtcCall.deinit 8, SleepSketch.RtcCall.deinit 9,
       SleepSketch.RtcCall.deinit 10, SleepSketch.RtcCall.deinit 11,
       SleepSketch.RtcCall.deinit 12, SleepSketch.RtcCall.deinit 13,
       SleepSketch.RtcCall.deinit 14, SleepSketch.RtcCall.deinit 17,
       SleepSketch.RtcCall.deinit 18, SleepSketch.RtcCall.deinit 19,
       SleepSketch.RtcCall.deinit 20, SleepSketch.RtcCall.deinit 21,
       SleepSketch.RtcCall.rtcInit 9,
       SleepSketch.RtcCall.pullupDis 9, SleepSketch.RtcCall.pulldownEn 9,
       SleepSketch.RtcCall.enableExt0Wakeup 9 1] ∧
    SleepSketch.RtcCall.pullupDis 9 ∉
      SleepSketch.init_rtc SleepSketch.USE_INTERNAL_PULLUP_PULLDOWN := by
  decide

/-- C3: a call to `handleSleepButton` invokes `esp_deep_sleep_start` iff
strictly more than DEBOUNCE_DELAY (50) ms elapsed between the current
`millis()` value and the stored `lastEdgeTime`, and the sleep-button pin
reads HIGH at that moment. -/
theorem C3_sleep_iff_debounced_and_high
    (lastEdgeTime currTime : Nat) (pinLevel : Level)
    (hle : lastEdgeTime ≤ currTime) (hcurr : currTime < UINT32_MOD) :
    (SleepSketch.handleSleepButton lastEdgeTime currTime pinLevel).sleeps
        = true ↔
      (currTime - lastEdgeTime > SleepSketch.DEBOUNCE_DELAY ∧
        pinLevel = Level.high) := by
  unfold SleepSketch.handleSleepButton
  rw [usub32_eq_sub currTime lastEdgeTime hle hcurr]
  by_cases hd : currTime - lastEdgeTime > SleepSketch.DEBOUNCE_DELAY
  · cases pinLevel <;> simp [hd]
  · simp [hd]

/-- Witness for C3 at a concrete input. -/
theorem C3_sleep_iff_witness :
    (SleepSketch.handleSleepButton 0 100 Level.high).sleeps = true :=
  (C3_sleep_iff_debounced_and_high 0 100 Level.high (by decide)
    (by decide)).mpr (by decide)

/-- C4: in Test_command_relay_with_push_button, for every `handleButton`
call in which more than `debounceDelay` (50) ms elapsed since the stored
`lastEdgeTime`, the relay pin is written with the logical negation of the
value read from the push-button pin: the relay output is driven LOW
exactly when the button reads HIGH. -/
theorem C4_relay_written_negation (lastEdgeTime currTime : Nat) (s : Level)
    (hle : lastEdgeTime ≤ currTime) (hcurr : currTime < UINT32_MOD)
    (hdeb : currTime - lastEdgeTime > RelayButton.debounceDelay) :
    (RelayButton.handleButton lastEdgeTime currTime s).relayWrite
        = some (negLevel s) ∧
    ((RelayButton.handleButton lastEdgeTime currTime s).relayWrite
        = some Level.low ↔ s = Level.high) := by
  unfold RelayButton.handleButton
  rw [usub32_eq_sub currTime lastEdgeTime hle hcurr]
  cases s <;> simp [hdeb, negLevel]

/-- Witness for C4 at a concrete input. -/
theorem C4_relay_written_witness :
    (RelayButton.handleButton 0 100 Level.high).relayWrite
      = some Level.low :=
  (C4_relay_written_negation 0 100 Level.high (by decide) (by decide)
    (by decide)).2.mpr rfl

/-- C5: for every debounced interrupt handler in the repository, an
invocation in which the elapsed time since the stored `lastEdgeTime` is
not greater than the 50 ms debounce delay changes nothing: no output pin
is written, `lastEdgeTime` is unchanged, and the sleep sketch does not
call `esp_deep_sleep_start`. -/
theorem C5_debounce_window_frame (lastEdgeTime currTime : Nat) (s p : Level)
    (hle : lastEdgeTime ≤ currTime) (hcurr : currTime < UINT32_MOD)
    (hdeb : currTime - lastEdgeTime ≤ 50) :
    RelayButton.handleButton lastEdgeTime currTime s
        = { lastEdgeTime := lastEdgeTime, relayWrite := none } ∧
    MainSketch.handlePumpButton lastEdgeTime currTime s
        = { lastEdgeTime := lastEdgeTime, relayWrite := none,
            ledGWrite := none } ∧
    SleepSketch.handleSleepButton lastEdgeTime currTime p
        = { lastEdgeTime := lastEdgeTime, sleeps := false } := by
  have h := usub32_eq_sub currTime lastEdgeTime hle hcurr
  have hng : ¬ (currTime - lastEdgeTime > 50) := by omega
  unfold RelayButton.handleButton MainSketch.handlePumpButton
    SleepSketch.handleSleepButton
  rw [h]
  simp [RelayButton.debounceDelay, MainSketch.DEBOUNCE_DELAY,
    SleepSketch.DEBOUNCE_DELAY, hng]

/-- Witness for C5 at a concrete input. -/
theorem C5_debounce_window_witness :
    RelayButton.handleButton 100 120 Level.high
        = { lastEdgeTime := 100, relayWrite := none } ∧
    MainSketch.handlePumpButton 100 120 Level.high
        = { lastEdgeTime := 100, relayWrite := none, ledGWrite := none } ∧
    SleepSketch.handleSleepButton 100 120 Level.high
        = { lastEdgeTime := 100, sleeps := false } :=
  C5_debounce_window_frame 100 120 Level.high Level.high (by decide)
    (by decide) (by decide)

/-- C6: every iteration of the calibration sketch's `loop()` reads the
analog value from pin A0 exactly once and prints exactly two lines: the
raw value `val`, and the percentage `perc = map(val, 1100, 3500, 0, 100)`,
i.e. `(val - 1100) * 100 / 2400` in (C truncating) integer arithmetic. -/
theorem C6_calibration_loop (val : Int) :
    (MoistCalib.loopIter val).filter MoistCalib.Event.isAnalogRead
        = [MoistCalib.Event.analogReadA0 val] ∧
    (MoistCalib.loopIter val).filter MoistCalib.Event.isPrintln
        = [MoistCalib.Event.serialPrintln
             ("Sensor value: " ++ toString val),
           MoistCalib.Event.serialPrintln
             ("Expressed in percentage: " ++
               toString (MoistCalib.map val 1100 3500 0 100))] ∧
    MoistCalib.map val 1100 3500 0 100
        = Int.tdiv ((val - 1100) * 100) 2400 := by
  refine ⟨?_, ?_, ?_⟩
  · simp [MoistCalib.loopIter, MoistCalib.Event.isAnalogRead,
      MoistCalib.Event.isPrintln]
  · simp [MoistCalib.loopIter, MoistCalib.Event.isAnalogRead,
      MoistCalib.Event.isPrintln]
  · norm_num [MoistCalib.map]

/-- Helper: the relay state of Test_command_relay after `n` iterations is
HIGH for even `n` and LOW for odd `n`. -/
theorem relayStateAfter_parity (n : Nat) :
    CommandRelay.relayStateAfter n
      = if n % 2 = 0 then Level.high else Level.low := by
  induction n with
  | zero => rfl
  | succ k ih =>
    rw [CommandRelay.relayStateAfter, ih]
    by_cases hk : k % 2 = 0
    · have h1 : (k + 1) % 2 = 1 := by omega
      simp [hk, h1, negLevel]
    · have h1 : (k + 1) % 2 = 0 := by omega
      simp [hk, h1, negLevel]

/-- C7: in Test_command_relay, `relayState` starts at HIGH, each `loop()`
iteration inverts it and writes the inverted value to pin 7, so after
`n ≥ 1` iterations the relay pin is LOW exactly when `n` is odd and HIGH
exactly when `n` is even, and two consecutive iterations never write the
same value. -/
theorem C7_relay_alternates (n : Nat) (_h : 1 ≤ n) :
    CommandRelay.relayStateAfter 0 = Level.high ∧
    (CommandRelay.writtenAt n = Level.low ↔ n % 2 = 1) ∧
    (CommandRelay.writtenAt n = Level.high ↔ n % 2 = 0) ∧
    CommandRelay.writtenAt (n + 1) ≠ CommandRelay.writtenAt n := by
  unfold CommandRelay.writtenAt
  rw [relayStateAfter_parity n, relayStateAfter_parity (n + 1)]
  by_cases hp : n % 2 = 0
  · have h1 : (n + 1) % 2 = 1 := by omega
    have h2 : ¬ n % 2 = 1 := by omega
    simp [hp, h1, h2]
    rfl
  · have h1 : (n + 1) % 2 = 0 := by omega
    have h2 : n % 2 = 1 := by omega
    simp [hp, h1, h2]
    rfl

/-- Witness for C7 at a concrete input. -/
theorem C7_relay_alternates_witness :
    CommandRelay.writtenAt 1 = Level.low :=
  (C7_relay_alternates 1 (by decide)).2.1.mpr (by decide)

/-- C8: in main.ino as configured (DEBUG_MODE undefined), the delay
between two successive moisture polls at the end of `loop()` is exactly
`POLLING_PERIOD_M * 3600 = 108000` ms (1.8 minutes), whereas a
30-minute period would require the factor 60000 (30 * 60000 = 1800000). -/
theorem C8_polling_delay_value :
    MainSketch.loopEndDelay = MainSketch.POLLING_PERIOD_M * 3600 ∧
    MainSketch.loopEndDelay = 108000 ∧
    (108000 : ℚ) / 60000 = 18 / 10 ∧
    MainSketch.POLLING_PERIOD_M * 60000 = 1800000 ∧
    MainSketch.loopEndDelay ≠ MainSketch.POLLING_PERIOD_M * 60000 :=
  ⟨by decide, by decide, by norm_num, by decide, by decide⟩

/-- C9: `lastEdgeTime` in main.ino is an `unsigned short`, so assigning
it from `millis()` stores the value mod 65536; hence there is an
execution with uptime above 65535 ms in which two `handlePumpButton`
invocations less than 50 ms apart both pass the debounce guard. -/
theorem C9_short_lastEdgeTime_debounce_bypass :
    ∃ t1 t2 : Nat, 65535 < t1 ∧ t1 < t2 ∧ t2 - t1 < 50 ∧
      (MainSketch.handlePumpButton 0 t1 Level.high).lastEdgeTime
          = t1 % 65536 ∧
      (MainSketch.handlePumpButton 0 t1 Level.high).relayWrite.isSome
          = true ∧
      (MainSketch.handlePumpButton
          (MainSketch.handlePumpButton 0 t1 Level.high).lastEdgeTime
          t2 Level.high).relayWrite.isSome = true := by
  refine ⟨70000, 70010, ?_⟩
  decide

/-- C10: every complete iteration of main.ino's `loop()` leaves the pump
deactivated: when the soil is dry the iteration is exactly yellow LED on,
pump on (relay LOW), green LED on, 5000 ms delay, pump off (relay HIGH),
green LED off, polling delay; when the soil is not dry neither the relay
pin nor PIN_LED_G is written; in all cases the relay level after the
iteration is HIGH (pump off) when the soil was dry and unchanged
otherwise. -/
theorem C10_loop_leaves_pump_off (v : Int) :
    (∀ init : Level, MainSketch.relayAfter (MainSketch.loopIter v) init
        = if MainSketch.isSoilDry v then Level.high else init) ∧
    (MainSketch.isSoilDry v = true →
      MainSketch.loopIter v =
        [MainSketch.MainEvent.writeLedY Level.high,
         MainSketch.MainEvent.writeRelay Level.low,
         MainSketch.MainEvent.writeLedG Level.high,
         MainSketch.MainEvent.delayMs 5000,
         MainSketch.MainEvent.writeRelay Level.high,
         MainSketch.MainEvent.writeLedG Level.low,
         MainSketch.MainEvent.delayMs 108000]) ∧
    (MainSketch.isSoilDry v = false →
      ∀ l : Level,
        MainSketch.MainEvent.writeRelay l ∉ MainSketch.loopIter v ∧
        MainSketch.MainEvent.writeLedG l ∉ MainSketch.loopIter v) := by
  by_cases hd : MainSketch.isSoilDry v
  · refine ⟨?_, ?_, ?_⟩
    · intro init
      simp [MainSketch.loopIter, hd, MainSketch.actionPump,
        MainSketch.relayAfter]
    · intro _
      simp [MainSketch.loopIter, hd, MainSketch.actionPump,
        MainSketch.loopEndDelay, MainSketch.DEBUG_MODE,
        MainSketch.POLLING_PERIOD_M]
    · intro hfalse
      rw [hd] at hfalse
      exact absurd hfalse (by decide)
  · refine ⟨?_, ?_, ?_⟩
    · intro init
      simp [MainSketch.loopIter, hd, MainSketch.relayAfter]
    · intro htrue
      exact absurd htrue hd
    · intro _ l
      simp [MainSketch.loopIter, hd]

/-- Witness for C10 at a concrete input. -/
theorem C10_loop_leaves_pump_off_witness :
    MainSketch.loopIter 2000 =
      [MainSketch.MainEvent.writeLedY Level.high,
       MainSketch.MainEvent.writeRelay Level.low,
       MainSketch.MainEvent.writeLedG Level.high,
       MainSketch.MainEvent.delayMs 5000,
       MainSketch.MainEvent.writeRelay Level.high,
       MainSketch.MainEvent.writeLedG Level.low,
       MainSketch.MainEvent.delayMs 108000] :=
  (C10_loop_leaves_pump_off 2000).2.1 (by decide)
